import Mathlib

/-!
# ResetSystemLib for RK35xx (Platform/Radxa/ROCK5B/Library/ResetSystemLib/ResetSystemLib.c)

A shallow embedding of the five routines of the library and proofs of the
dispatcher's observable contract.

The two boundary primitives, `MmioWrite32` and `ArmCallSmc`, are modelled as
returning and as appending one event to a trace of primitive calls.  Every
routine of the library is a function from the trace before the call to the
trace after it.  The build-time flag `RK356X` is a Boolean parameter, the macro
`ARM_SMC_ID_PSCI_SYSTEM_OFF` (defined in `IndustryStandard/ArmStdSmc.h`, which
is not part of this source file) is a parameter, and the indeterminate initial
contents of the local `ArmSmcArgs` of `ResetShutdown` are a parameter as well.
-/

set_option linter.unusedVariables false

namespace ResetSystemLib

/-! ## Data model -/

/-- Reset kinds received by the dispatcher. `EFI_RESET_TYPE` is a C enumeration
declared in the UEFI headers; its four enumerators are the case labels of
`ResetSystem`, and `unrecognized raw` stands for every other value the
underlying integer type can hold. -/
inductive EFI_RESET_TYPE where
  | EfiResetCold
  | EfiResetWarm
  | EfiResetShutdown
  | EfiResetPlatformSpecific
  | unrecognized (raw : Nat)
  deriving DecidableEq, Repr

/-- The SMC argument block `ARM_SMC_ARGS` of `Library/ArmSmcLib.h`: eight
register-sized fields `Arg0` .. `Arg7`. -/
structure ARM_SMC_ARGS where
  Arg0 : Nat
  Arg1 : Nat
  Arg2 : Nat
  Arg3 : Nat
  Arg4 : Nat
  Arg5 : Nat
  Arg6 : Nat
  Arg7 : Nat
  deriving DecidableEq, Repr

/-- One call of a boundary primitive, as recorded by the mocks. -/
inductive Prim where
  | mmioWrite32 (Address : Nat) (Value : Nat)
  | armCallSmc (Args : ARM_SMC_ARGS)
  deriving DecidableEq, Repr

/-- The sequence of primitive calls performed so far, oldest first. -/
abbrev Trace := List Prim

/-- How control leaves the `switch` statement of `ResetSystem`. -/
inductive SwitchExit where
  | viaBreak
  | viaReturn
  deriving DecidableEq, Repr

/-! ## Boundary primitives (mocks that record the call and return) -/

/-- Mock of `MmioWrite32 (UINTN Address, UINT32 Value)`: records the write, with
the arguments reduced to the width of their parameter types. -/
def MmioWrite32 (Address Value : Nat) (t : Trace) : Trace :=
  t ++ [Prim.mmioWrite32 (Address % 2 ^ 64) (Value % 2 ^ 32)]

/-- Mock of `ArmCallSmc (ARM_SMC_ARGS *Args)`: records the argument block it is
handed. The values it would write back into the block are not used by any
caller in this library. -/
def ArmCallSmc (Args : ARM_SMC_ARGS) (t : Trace) : Trace :=
  t ++ [Prim.armCallSmc Args]

/-! ## The library routines -/

/-- Embedding of `ResetWarm`: the first global software reset, selected by the
`RK356X` conditional. -/
def ResetWarm (RK356X : Bool) (t : Trace) : Trace :=
  if RK356X then
    MmioWrite32 0xFDD200D4 0xfdb9 t
  else
    MmioWrite32 0xFD7C0C08 0xfdb9 t

/-- Embedding of `ResetCold`: its body is the single call `ResetWarm ()`; the
PSCI SYSTEM_RESET sequence is commented out in the source. -/
def ResetCold (RK356X : Bool) (t : Trace) : Trace :=
  ResetWarm RK356X t

/-- Embedding of `ResetShutdown`. The parameter `ArmSmcArgs` is the initial
content of the uninitialised local of that name; the routine assigns `Arg0`
and passes the block to `ArmCallSmc`. -/
def ResetShutdown (ARM_SMC_ID_PSCI_SYSTEM_OFF : Nat) (ArmSmcArgs : ARM_SMC_ARGS)
    (t : Trace) : Trace :=
  let ArmSmcArgs := { ArmSmcArgs with Arg0 := ARM_SMC_ID_PSCI_SYSTEM_OFF }
  ArmCallSmc ArmSmcArgs t

/-- Embedding of `ResetPlatformSpecific (DataSize, ResetData)`: the
variant-dependent register write followed by `ResetWarm ()`. A null `ResetData`
is `none`. -/
def ResetPlatformSpecific (RK356X : Bool) (DataSize : Nat) (ResetData : Option (List Nat))
    (t : Trace) : Trace :=
  let t1 :=
    if RK356X then
      MmioWrite32 0xfdc20200 0xEF08A53C t
    else
      MmioWrite32 0xfd588080 0xEF08A53C t
  ResetWarm RK356X t1

/-- The `switch (ResetType)` statement of `ResetSystem`: the trace after the
selected case and the way control leaves the statement. -/
def ResetSystemSwitch (RK356X : Bool) (ARM_SMC_ID_PSCI_SYSTEM_OFF : Nat)
    (ArmSmcArgs : ARM_SMC_ARGS) (ResetType : EFI_RESET_TYPE) (ResetStatus : Nat)
    (DataSize : Nat) (ResetData : Option (List Nat)) (t : Trace) : Trace × SwitchExit :=
  match ResetType with
  | .EfiResetWarm => (ResetWarm RK356X t, .viaBreak)
  | .EfiResetCold => (ResetCold RK356X t, .viaBreak)
  | .EfiResetShutdown => (ResetShutdown ARM_SMC_ID_PSCI_SYSTEM_OFF ArmSmcArgs t, .viaReturn)
  | .EfiResetPlatformSpecific => (ResetPlatformSpecific RK356X DataSize ResetData t, .viaReturn)
  | .unrecognized _ => (t, .viaReturn)

/-- Embedding of `ResetSystem (ResetType, ResetStatus, DataSize, ResetData)`.
After a `break` control reaches the end of the function body, where there is no
further statement; after a `return` the function is left at once. -/
def ResetSystem (RK356X : Bool) (ARM_SMC_ID_PSCI_SYSTEM_OFF : Nat)
    (ArmSmcArgs : ARM_SMC_ARGS) (ResetType : EFI_RESET_TYPE) (ResetStatus : Nat)
    (DataSize : Nat) (ResetData : Option (List Nat)) (t : Trace) : Trace :=
  match ResetSystemSwitch RK356X ARM_SMC_ID_PSCI_SYSTEM_OFF ArmSmcArgs ResetType ResetStatus
      DataSize ResetData t with
  | (t1, .viaBreak) => t1
  | (t1, .viaReturn) => t1

/-! ## Vocabulary of the specification -/

/-- Whether a recorded primitive call is an SMC call. -/
def Prim.isSmc : Prim → Bool
  | .mmioWrite32 _ _ => false
  | .armCallSmc _ => true

/-- Whether a recorded primitive call is a 32-bit MMIO write. -/
def Prim.isMmioWrite : Prim → Bool
  | .mmioWrite32 _ _ => true
  | .armCallSmc _ => false

/-- What the specification documents of a primitive call: the address and value
of a register write, or the command code of a privileged call. -/
inductive Command where
  | write (Address : Nat) (Value : Nat)
  | call (CommandCode : Nat)
  deriving DecidableEq, Repr

/-- The documented part of a recorded primitive call. -/
def Prim.command : Prim → Command
  | .mmioWrite32 a v => .write a v
  | .armCallSmc args => .call args.Arg0

/-- The address substitution of the specification's variant table: the default
warm-reset address becomes `0xFDD200D4`, the default platform-specific address
becomes `0xFDC20200`, every other address is kept. -/
def rk356xAddress (Address : Nat) : Nat :=
  if Address = 0xFD7C0C08 then 0xFDD200D4
  else if Address = 0xFD588080 then 0xFDC20200
  else Address

/-- The substitution of `rk356xAddress` applied to one primitive call: only the
address of a register write changes. -/
def rk356xPrim : Prim → Prim
  | .mmioWrite32 a v => .mmioWrite32 (rk356xAddress a) v
  | .armCallSmc args => .armCallSmc args

/-- The warm-reset register address of a build, as tabulated in the
specification. -/
def warmResetAddress (RK356X : Bool) : Nat :=
  if RK356X then 0xFDD200D4 else 0xFD7C0C08

/-- The platform-specific register address of a build, as tabulated in the
specification. -/
def platformSpecificAddress (RK356X : Bool) : Nat :=
  if RK356X then 0xFDC20200 else 0xFD588080

/-- A recorded primitive call with the address of a register write blanked:
what remains is the value written, or the whole argument block of an SMC call. -/
def Prim.eraseAddress : Prim → Prim
  | .mmioWrite32 _ v => .mmioWrite32 0 v
  | .armCallSmc args => .armCallSmc args

/-! ## Basic facts about the routines -/

theorem ResetWarm_eq (RK356X : Bool) (t : Trace) :
    ResetWarm RK356X t = t ++ [Prim.mmioWrite32 (warmResetAddress RK356X) 0xFDB9] := by
  cases RK356X <;> simp [ResetWarm, MmioWrite32, warmResetAddress]

theorem ResetCold_eq (RK356X : Bool) (t : Trace) :
    ResetCold RK356X t = t ++ [Prim.mmioWrite32 (warmResetAddress RK356X) 0xFDB9] := by
  simp [ResetCold, ResetWarm_eq]

theorem ResetShutdown_eq (off : Nat) (B : ARM_SMC_ARGS) (t : Trace) :
    ResetShutdown off B t = t ++ [Prim.armCallSmc { B with Arg0 := off }] := by
  simp [ResetShutdown, ArmCallSmc]

theorem ResetPlatformSpecific_eq (RK356X : Bool) (n : Nat) (d : Option (List Nat))
    (t : Trace) :
    ResetPlatformSpecific RK356X n d t
      = t ++ [Prim.mmioWrite32 (platformSpecificAddress RK356X) 0xEF08A53C,
              Prim.mmioWrite32 (warmResetAddress RK356X) 0xFDB9] := by
  cases RK356X <;>
    simp [ResetPlatformSpecific, ResetWarm, MmioWrite32, warmResetAddress,
      platformSpecificAddress]

theorem ResetSystem_frame (RK356X : Bool) (off : Nat) (B : ARM_SMC_ARGS)
    (k : EFI_RESET_TYPE) (s n : Nat) (d : Option (List Nat)) (t : Trace) :
    ResetSystem RK356X off B k s n d t = t ++ ResetSystem RK356X off B k s n d [] := by
  cases k <;>
    simp [ResetSystem, ResetSystemSwitch, ResetWarm_eq, ResetCold_eq, ResetShutdown_eq,
      ResetPlatformSpecific_eq]

theorem ResetSystem_produces (RK356X : Bool) (off : Nat) (B : ARM_SMC_ARGS)
    (k : EFI_RESET_TYPE) (s n : Nat) (d : Option (List Nat)) :
    ResetSystem RK356X off B k s n d []
      = match k with
        | .EfiResetWarm => [Prim.mmioWrite32 (warmResetAddress RK356X) 0xFDB9]
        | .EfiResetCold => [Prim.mmioWrite32 (warmResetAddress RK356X) 0xFDB9]
        | .EfiResetShutdown => [Prim.armCallSmc { B with Arg0 := off }]
        | .EfiResetPlatformSpecific =>
            [Prim.mmioWrite32 (platformSpecificAddress RK356X) 0xEF08A53C,
             Prim.mmioWrite32 (warmResetAddress RK356X) 0xFDB9]
        | .unrecognized _ => [] := by
  cases k <;>
    simp [ResetSystem, ResetSystemSwitch, ResetWarm_eq, ResetCold_eq, ResetShutdown_eq,
      ResetPlatformSpecific_eq]

/-! ## The dispatcher's contract -/

/-- C1: dispatching `EfiResetCold` appends exactly what dispatching
`EfiResetWarm` appends, namely the single write of `0xFDB9` to the warm-reset
register of the build (`0xFD7C0C08` in the default build), and the calls it
produces contain no SMC call. -/
theorem ResetSystem_cold_eq_warm (RK356X : Bool) (off : Nat) (B : ARM_SMC_ARGS)
    (s n : Nat) (d : Option (List Nat)) (t : Trace) :
    ResetSystem RK356X off B .EfiResetCold s n d t
        = ResetSystem RK356X off B .EfiResetWarm s n d t
      ∧ ResetSystem RK356X off B .EfiResetCold s n d t
        = t ++ [Prim.mmioWrite32 (if RK356X then 0xFDD200D4 else 0xFD7C0C08) 0xFDB9]
      ∧ ResetSystem false off B .EfiResetCold s n d t
        = t ++ [Prim.mmioWrite32 0xFD7C0C08 0xFDB9]
      ∧ ∀ e ∈ ResetSystem RK356X off B .EfiResetCold s n d [], e.isSmc = false := by
  refine ⟨?_, ?_, ?_, ?_⟩
  · simp [ResetSystem, ResetSystemSwitch, ResetCold]
  · rw [ResetSystem_frame, ResetSystem_produces]
    simp [warmResetAddress]
  · rw [ResetSystem_frame, ResetSystem_produces]
    simp [warmResetAddress]
  · rw [ResetSystem_produces]
    simp [Prim.isSmc]

/-- C2: dispatching `EfiResetPlatformSpecific` appends exactly two MMIO writes,
first `0xEF08A53C` to the platform-specific register (`0xFD588080` in the
default build), then `0xFDB9` to the warm-reset register (`0xFD7C0C08` in the
default build); no SMC call is produced, and the same two calls are produced
for every payload and payload size, a null payload included. -/
theorem ResetSystem_platformSpecific (RK356X : Bool) (off : Nat) (B : ARM_SMC_ARGS)
    (s n : Nat) (d : Option (List Nat)) (t : Trace) :
    ResetSystem RK356X off B .EfiResetPlatformSpecific s n d t
        = t ++ [Prim.mmioWrite32 (if RK356X then 0xFDC20200 else 0xFD588080) 0xEF08A53C,
                Prim.mmioWrite32 (if RK356X then 0xFDD200D4 else 0xFD7C0C08) 0xFDB9]
      ∧ ResetSystem false off B .EfiResetPlatformSpecific s n d t
        = t ++ [Prim.mmioWrite32 0xFD588080 0xEF08A53C, Prim.mmioWrite32 0xFD7C0C08 0xFDB9]
      ∧ (∀ e ∈ ResetSystem RK356X off B .EfiResetPlatformSpecific s n d [], e.isSmc = false)
      ∧ ∀ (n2 : Nat) (d2 : Option (List Nat)),
          ResetSystem RK356X off B .EfiResetPlatformSpecific s n2 d2 t
            = ResetSystem RK356X off B .EfiResetPlatformSpecific s n d t := by
  refine ⟨?_, ?_, ?_, ?_⟩
  · rw [ResetSystem_frame, ResetSystem_produces]
    simp [warmResetAddress, platformSpecificAddress]
  · rw [ResetSystem_frame, ResetSystem_produces]
    simp [warmResetAddress, platformSpecificAddress]
  · rw [ResetSystem_produces]
    simp [Prim.isSmc]
  · intro n2 d2
    rw [ResetSystem_frame, ResetSystem_produces, ResetSystem_frame RK356X off B _ s n d,
      ResetSystem_produces]

/-- C3: dispatching `EfiResetShutdown` appends exactly one primitive call, an
SMC call whose `Arg0` is `ARM_SMC_ID_PSCI_SYSTEM_OFF`; no MMIO write is
produced. -/
theorem ResetSystem_shutdown (RK356X : Bool) (ARM_SMC_ID_PSCI_SYSTEM_OFF : Nat)
    (B : ARM_SMC_ARGS) (s n : Nat) (d : Option (List Nat)) (t : Trace) :
    (∃ args : ARM_SMC_ARGS,
        ResetSystem RK356X ARM_SMC_ID_PSCI_SYSTEM_OFF B .EfiResetShutdown s n d t
          = t ++ [Prim.armCallSmc args]
        ∧ args.Arg0 = ARM_SMC_ID_PSCI_SYSTEM_OFF)
      ∧ (ResetSystem RK356X ARM_SMC_ID_PSCI_SYSTEM_OFF B .EfiResetShutdown s n d []).length = 1
      ∧ ∀ e ∈ ResetSystem RK356X ARM_SMC_ID_PSCI_SYSTEM_OFF B .EfiResetShutdown s n d [],
          e.isMmioWrite = false := by
  refine ⟨⟨{ B with Arg0 := ARM_SMC_ID_PSCI_SYSTEM_OFF }, ?_, rfl⟩, ?_, ?_⟩
  · rw [ResetSystem_frame, ResetSystem_produces]
  · rw [ResetSystem_produces]
    simp
  · rw [ResetSystem_produces]
    simp [Prim.isMmioWrite]

/-- C4: dispatching `EfiResetWarm` appends exactly one primitive call, the
32-bit MMIO write of `0xFDB9` to the warm-reset register of the build
(`0xFD7C0C08` in the default build): no second write and no SMC call. -/
theorem ResetSystem_warm (RK356X : Bool) (off : Nat) (B : ARM_SMC_ARGS)
    (s n : Nat) (d : Option (List Nat)) (t : Trace) :
    ResetSystem RK356X off B .EfiResetWarm s n d t
        = t ++ [Prim.mmioWrite32 (if RK356X then 0xFDD200D4 else 0xFD7C0C08) 0xFDB9]
      ∧ ResetSystem false off B .EfiResetWarm s n d t
        = t ++ [Prim.mmioWrite32 0xFD7C0C08 0xFDB9]
      ∧ (ResetSystem RK356X off B .EfiResetWarm s n d []).length = 1
      ∧ ∀ e ∈ ResetSystem RK356X off B .EfiResetWarm s n d [], e.isSmc = false := by
  refine ⟨?_, ?_, ?_, ?_⟩
  · rw [ResetSystem_frame, ResetSystem_produces]
    simp [warmResetAddress]
  · rw [ResetSystem_frame, ResetSystem_produces]
    simp [warmResetAddress]
  · rw [ResetSystem_produces]
    simp
  · rw [ResetSystem_produces]
    simp [Prim.isSmc]

/-- C5: for a reset kind that is none of `EfiResetWarm`, `EfiResetCold`,
`EfiResetShutdown`, `EfiResetPlatformSpecific`, the dispatcher invokes no
primitive (the trace is unchanged, so the produced trace is empty) and leaves
through the `return` of the `default` case. -/
theorem ResetSystem_unrecognized (RK356X : Bool) (off : Nat) (B : ARM_SMC_ARGS)
    (k : EFI_RESET_TYPE) (s n : Nat) (d : Option (List Nat)) (t : Trace)
    (hWarm : k ≠ .EfiResetWarm) (hCold : k ≠ .EfiResetCold)
    (hShutdown : k ≠ .EfiResetShutdown) (hPlatform : k ≠ .EfiResetPlatformSpecific) :
    ResetSystem RK356X off B k s n d t = t
      ∧ ResetSystem RK356X off B k s n d [] = []
      ∧ ResetSystemSwitch RK356X off B k s n d t = (t, SwitchExit.viaReturn) := by
  cases k with
  | EfiResetCold => exact absurd rfl hCold
  | EfiResetWarm => exact absurd rfl hWarm
  | EfiResetShutdown => exact absurd rfl hShutdown
  | EfiResetPlatformSpecific => exact absurd rfl hPlatform
  | unrecognized raw => simp [ResetSystem, ResetSystemSwitch]

theorem ResetSystem_unrecognized_witness :
    EFI_RESET_TYPE.unrecognized 4 ≠ .EfiResetWarm
      ∧ EFI_RESET_TYPE.unrecognized 4 ≠ .EfiResetCold
      ∧ EFI_RESET_TYPE.unrecognized 4 ≠ .EfiResetShutdown
      ∧ EFI_RESET_TYPE.unrecognized 4 ≠ .EfiResetPlatformSpecific
      ∧ (ResetSystem false 0x84000008 ⟨1, 2, 3, 4, 5, 6, 7, 8⟩ (.unrecognized 4) 0 3
            (some [0x41, 0, 0]) [Prim.mmioWrite32 0xFD7C0C08 0xFDB9]
          = [Prim.mmioWrite32 0xFD7C0C08 0xFDB9]
        ∧ ResetSystem false 0x84000008 ⟨1, 2, 3, 4, 5, 6, 7, 8⟩ (.unrecognized 4) 0 3
            (some [0x41, 0, 0]) [] = []
        ∧ ResetSystemSwitch false 0x84000008 ⟨1, 2, 3, 4, 5, 6, 7, 8⟩ (.unrecognized 4) 0 3
            (some [0x41, 0, 0]) [Prim.mmioWrite32 0xFD7C0C08 0xFDB9]
          = ([Prim.mmioWrite32 0xFD7C0C08 0xFDB9], SwitchExit.viaReturn)) :=
  ⟨by decide, by decide, by decide, by decide,
    ResetSystem_unrecognized false 0x84000008 ⟨1, 2, 3, 4, 5, 6, 7, 8⟩ (.unrecognized 4) 0 3
      (some [0x41, 0, 0]) [Prim.mmioWrite32 0xFD7C0C08 0xFDB9]
      (by decide) (by decide) (by decide) (by decide)⟩

/-- C6: the trace of the RK356X build is the trace of the default build with
the warm-reset address `0xFD7C0C08` replaced by `0xFDD200D4` and the
platform-specific address `0xFD588080` replaced by `0xFDC20200`; the number and
order of the primitive calls, the values written and the SMC argument block
(its command code in particular) are the same in both builds. -/
theorem ResetSystem_rk356x_variant (off : Nat) (B : ARM_SMC_ARGS) (k : EFI_RESET_TYPE)
    (s n : Nat) (d : Option (List Nat)) (t : Trace) :
    ResetSystem true off B k s n d t
        = t ++ (ResetSystem false off B k s n d []).map rk356xPrim
      ∧ (ResetSystem true off B k s n d []).length
        = (ResetSystem false off B k s n d []).length
      ∧ (ResetSystem true off B k s n d []).map Prim.eraseAddress
        = (ResetSystem false off B k s n d []).map Prim.eraseAddress
      ∧ (ResetSystem true off B k s n d []).map Prim.isSmc
        = (ResetSystem false off B k s n d []).map Prim.isSmc := by
  refine ⟨?_, ?_, ?_, ?_⟩
  · rw [ResetSystem_frame, ResetSystem_produces, ResetSystem_produces]
    cases k <;>
      simp [rk356xPrim, rk356xAddress, warmResetAddress, platformSpecificAddress]
  · rw [ResetSystem_produces, ResetSystem_produces]
    cases k <;> simp
  · rw [ResetSystem_produces, ResetSystem_produces]
    cases k <;> simp [Prim.eraseAddress]
  · rw [ResetSystem_produces, ResetSystem_produces]
    cases k <;> simp [Prim.isSmc]

/-- C7: two dispatches in sequence with the same inputs, from any starting
trace, leave that trace followed by the calls of one dispatch twice over. The
calls a dispatch appends do not depend on the trace it starts from, so also
with different initial contents `B1`, `B2` of the SMC block the second dispatch
appends what it appends on its own, and the documented calls (addresses, values,
command code) of the two dispatches coincide. This holds for every reset kind,
the four recognized ones in particular. -/
theorem ResetSystem_twice (RK356X : Bool) (off : Nat) (B1 B2 : ARM_SMC_ARGS)
    (k : EFI_RESET_TYPE) (s n : Nat) (d : Option (List Nat)) (t : Trace) :
    ResetSystem RK356X off B1 k s n d (ResetSystem RK356X off B1 k s n d t)
        = t ++ (ResetSystem RK356X off B1 k s n d [] ++ ResetSystem RK356X off B1 k s n d [])
      ∧ ResetSystem RK356X off B2 k s n d (ResetSystem RK356X off B1 k s n d t)
        = t ++ (ResetSystem RK356X off B1 k s n d [] ++ ResetSystem RK356X off B2 k s n d [])
      ∧ (ResetSystem RK356X off B2 k s n d []).map Prim.command
        = (ResetSystem RK356X off B1 k s n d []).map Prim.command := by
  refine ⟨?_, ?_, ?_⟩
  · rw [ResetSystem_frame RK356X off B1 k s n d (ResetSystem RK356X off B1 k s n d t),
      ResetSystem_frame RK356X off B1 k s n d t, List.append_assoc]
  · rw [ResetSystem_frame RK356X off B2 k s n d (ResetSystem RK356X off B1 k s n d t),
      ResetSystem_frame RK356X off B1 k s n d t, List.append_assoc]
  · rw [ResetSystem_produces, ResetSystem_produces]
    cases k <;> simp [Prim.command]

/-- C8: the informational inputs do not interfere: for every reset kind,
recognized or not, two dispatches that differ only in status code, payload size
and payload yield the same trace. The documented calls (addresses, values,
command code) are moreover the same for any initial contents of the SMC block,
so they are determined by the kind and the build alone. -/
theorem ResetSystem_informational_inputs (RK356X : Bool) (off : Nat) (B : ARM_SMC_ARGS)
    (k : EFI_RESET_TYPE) (s1 n1 : Nat) (d1 : Option (List Nat))
    (s2 n2 : Nat) (d2 : Option (List Nat)) (t : Trace) :
    ResetSystem RK356X off B k s1 n1 d1 t = ResetSystem RK356X off B k s2 n2 d2 t
      ∧ ∀ B2 : ARM_SMC_ARGS,
          (ResetSystem RK356X off B2 k s2 n2 d2 []).map Prim.command
            = (ResetSystem RK356X off B k s1 n1 d1 []).map Prim.command := by
  refine ⟨?_, ?_⟩
  · rw [ResetSystem_frame RK356X off B k s1 n1 d1 t, ResetSystem_frame RK356X off B k s2 n2 d2 t,
      ResetSystem_produces, ResetSystem_produces]
  · intro B2
    rw [ResetSystem_produces, ResetSystem_produces]
    cases k <;> simp [Prim.command]

/-- C9: the unified entry point adds nothing to the leaf actions: for each
recognized kind the trace after `ResetSystem` is the trace after the one leaf
routine of that kind, whether the case leaves the switch by `break` (warm,
cold) or by `return` (shutdown, platform specific). -/
theorem ResetSystem_eq_leaf (RK356X : Bool) (off : Nat) (B : ARM_SMC_ARGS)
    (s n : Nat) (d : Option (List Nat)) (t : Trace) :
    (ResetSystem RK356X off B .EfiResetWarm s n d t = ResetWarm RK356X t
        ∧ ResetSystem RK356X off B .EfiResetCold s n d t = ResetCold RK356X t
        ∧ ResetSystem RK356X off B .EfiResetShutdown s n d t = ResetShutdown off B t
        ∧ ResetSystem RK356X off B .EfiResetPlatformSpecific s n d t
          = ResetPlatformSpecific RK356X n d t)
      ∧ ResetSystemSwitch RK356X off B .EfiResetWarm s n d t
          = (ResetWarm RK356X t, SwitchExit.viaBreak)
      ∧ ResetSystemSwitch RK356X off B .EfiResetCold s n d t
          = (ResetCold RK356X t, SwitchExit.viaBreak)
      ∧ ResetSystemSwitch RK356X off B .EfiResetShutdown s n d t
          = (ResetShutdown off B t, SwitchExit.viaReturn)
      ∧ ResetSystemSwitch RK356X off B .EfiResetPlatformSpecific s n d t
          = (ResetPlatformSpecific RK356X n d t, SwitchExit.viaReturn) := by
  refine ⟨⟨?_, ?_, ?_, ?_⟩, ?_, ?_, ?_, ?_⟩ <;> simp [ResetSystem, ResetSystemSwitch]

/-- C10: `ResetShutdown` assigns only `Arg0`: for every initial content `B` of
the local block, the block handed to the SMC primitive has `Arg0` equal to
`ARM_SMC_ID_PSCI_SYSTEM_OFF` and `Arg1` .. `Arg7` equal to those of `B`. The
command code of the emitted call is therefore the same for every `B`, while the
emitted block as a whole is not: two initial contents give different calls. -/
theorem ResetShutdown_assigns_only_Arg0 (ARM_SMC_ID_PSCI_SYSTEM_OFF : Nat)
    (B : ARM_SMC_ARGS) (t : Trace) :
    (∃ args : ARM_SMC_ARGS,
        ResetShutdown ARM_SMC_ID_PSCI_SYSTEM_OFF B t = t ++ [Prim.armCallSmc args]
        ∧ args.Arg0 = ARM_SMC_ID_PSCI_SYSTEM_OFF
        ∧ args.Arg1 = B.Arg1 ∧ args.Arg2 = B.Arg2 ∧ args.Arg3 = B.Arg3 ∧ args.Arg4 = B.Arg4
        ∧ args.Arg5 = B.Arg5 ∧ args.Arg6 = B.Arg6 ∧ args.Arg7 = B.Arg7)
      ∧ (∀ B2 : ARM_SMC_ARGS,
          (ResetShutdown ARM_SMC_ID_PSCI_SYSTEM_OFF B2 []).map Prim.command
            = (ResetShutdown ARM_SMC_ID_PSCI_SYSTEM_OFF B []).map Prim.command)
      ∧ ∃ B1 B2 : ARM_SMC_ARGS,
          ResetShutdown ARM_SMC_ID_PSCI_SYSTEM_OFF B1 []
            ≠ ResetShutdown ARM_SMC_ID_PSCI_SYSTEM_OFF B2 [] := by
  refine ⟨⟨{ B with Arg0 := ARM_SMC_ID_PSCI_SYSTEM_OFF }, ?_, rfl, rfl, rfl, rfl, rfl, rfl,
    rfl, rfl⟩, ?_, ⟨⟨0, 0, 0, 0, 0, 0, 0, 0⟩, ⟨0, 1, 0, 0, 0, 0, 0, 0⟩, ?_⟩⟩
  · exact ResetShutdown_eq _ _ _
  · intro B2
    simp [ResetShutdown_eq, Prim.command]
  · simp [ResetShutdown_eq]

end ResetSystemLib
